import Mathlib

/-!
Verification of the StepAware watchdog manager (MockWatchdog in
test/test_watchdog.py): a shallow embedding of the health-monitoring and
tiered-recovery engine, followed by theorems about its behavior.

Modelling notes:
* `HealthStatus` and `RecoveryAction` embed the integer enums
  HEALTH_OK..HEALTH_FAILED (0..3) and RECOVERY_NONE..RECOVERY_HW_WATCHDOG
  (0..4); `sev` and `actVal` give the integer values used for comparisons.
* A module's `check_func` / `recovery_func` slots are modelled by the
  booleans `hasCheck` / `hasRecovery` (their truthiness, which is all the
  manager inspects); the value a check returns on a given tick is supplied
  to `update` as an argument `checks : Nat → HealthStatus × Option String`,
  one result per module id, so a fresh `checks` per tick models stateful
  closures.
* Calls made to a module's `recovery_func` are externally observable side
  effects; they are recorded in the ghost trace field
  `callback_invocations` (appended exactly when the Python code calls
  `info['recovery_func'](action)`).
* The Python registry is an insertion-ordered dict; it is embedded as an
  association list where assignment to an existing key replaces the value
  in place and assignment to a new key appends at the end.
-/

inductive HealthStatus where
  | ok
  | warning
  | critical
  | failed
deriving DecidableEq, Repr

/-- Integer value of a health status (HEALTH_OK = 0 .. HEALTH_FAILED = 3);
the Python code compares statuses with integer comparison. -/
def sev : HealthStatus → Nat
  | .ok => 0
  | .warning => 1
  | .critical => 2
  | .failed => 3

inductive RecoveryAction where
  | none
  | soft
  | moduleRestart
  | systemReboot
  | hwWatchdog
deriving DecidableEq, Repr

/-- Integer value of a recovery action (RECOVERY_NONE = 0 .. RECOVERY_HW_WATCHDOG = 4). -/
def actVal : RecoveryAction → Nat
  | .none => 0
  | .soft => 1
  | .moduleRestart => 2
  | .systemReboot => 3
  | .hwWatchdog => 4

/-- One registry entry, as built by `register_module`. -/
structure ModuleInfo where
  hasCheck : Bool
  hasRecovery : Bool
  status : HealthStatus
  failure_count : Nat
  total_failures : Nat
  message : Option String
deriving DecidableEq, Repr

/-- One entry of `recovery_actions_taken`. -/
structure RecoveryRecord where
  module : Nat
  action : RecoveryAction
  failure_count : Nat
deriving DecidableEq, Repr

/-- The watchdog manager state (fields of MockWatchdog.__init__, plus the
ghost trace `callback_invocations` of recovery_func calls). -/
structure Watchdog where
  modules : List (Nat × ModuleInfo)
  hw_wdt_fed : Bool
  hw_wdt_feed_count : Nat
  system_rebooted : Bool
  recovery_actions_taken : List RecoveryRecord
  callback_invocations : List (Nat × RecoveryAction)
  soft_recovery_threshold : Nat
  module_restart_threshold : Nat
  system_recovery_threshold : Nat
deriving DecidableEq, Repr

/-- Dict lookup: `self.modules[module_id]` / `module_id in self.modules`. -/
def lookupMod : List (Nat × ModuleInfo) → Nat → Option ModuleInfo
  | [], _ => Option.none
  | (k, v) :: rest, id => if k = id then some v else lookupMod rest id

/-- Dict assignment `self.modules[module_id] = v`: replaces in place when the
key exists (Python dicts keep the original position), appends otherwise. -/
def setMod : List (Nat × ModuleInfo) → Nat → ModuleInfo → List (Nat × ModuleInfo)
  | [], id, v => [(id, v)]
  | (k, w) :: rest, id, v =>
      if k = id then (id, v) :: rest else (k, w) :: setMod rest id v

/-- MockWatchdog.__init__ -/
def initWatchdog : Watchdog where
  modules := []
  hw_wdt_fed := false
  hw_wdt_feed_count := 0
  system_rebooted := false
  recovery_actions_taken := []
  callback_invocations := []
  soft_recovery_threshold := 2
  module_restart_threshold := 5
  system_recovery_threshold := 10

/-- MockWatchdog.register_module: unconditionally installs a fresh record
(status OK, both counters 0, no message). -/
def register_module (w : Watchdog) (module_id : Nat) (hasCheck hasRecovery : Bool) :
    Watchdog :=
  let fresh : ModuleInfo :=
    { hasCheck := hasCheck, hasRecovery := hasRecovery,
      status := HealthStatus.ok, failure_count := 0, total_failures := 0,
      message := Option.none }
  { w with modules := setMod w.modules module_id fresh }

/-- MockWatchdog._determine_recovery_action -/
def determine_recovery_action (w : Watchdog) (failure_count : Nat) : RecoveryAction :=
  if failure_count ≥ w.system_recovery_threshold then RecoveryAction.hwWatchdog
  else if failure_count ≥ w.module_restart_threshold then RecoveryAction.systemReboot
  else if failure_count ≥ w.soft_recovery_threshold then RecoveryAction.moduleRestart
  else RecoveryAction.soft

/-- MockWatchdog.feed_hw_watchdog -/
def feed_hw_watchdog (w : Watchdog) : Watchdog :=
  { w with hw_wdt_fed := true, hw_wdt_feed_count := w.hw_wdt_feed_count + 1 }

/-- Loop body of MockWatchdog.get_system_health: replace the running worst
status when the module's status compares greater as an integer. -/
def worstStep (worst : HealthStatus) (p : Nat × ModuleInfo) : HealthStatus :=
  if sev worst < sev p.2.status then p.2.status else worst

/-- MockWatchdog.get_system_health: worst (integer-maximal) status over all
registered modules, starting from HEALTH_OK. -/
def get_system_health (w : Watchdog) : HealthStatus :=
  w.modules.foldl worstStep HealthStatus.ok

/-- MockWatchdog.get_module_health: FAILED for an unregistered id. -/
def get_module_health (w : Watchdog) (module_id : Nat) : HealthStatus :=
  match lookupMod w.modules module_id with
  | some info => info.status
  | Option.none => HealthStatus.failed

/-- MockWatchdog.is_healthy: system health in {OK, WARNING}. -/
def is_healthy (w : Watchdog) : Bool :=
  match get_system_health w with
  | HealthStatus.ok => true
  | HealthStatus.warning => true
  | _ => false

/-- MockWatchdog._handle_module_failure. The `Option.none` lookup branch is
unreachable from `update` (the id is always registered there); it is
totalized as a no-op. Callback calls are appended to the ghost trace. -/
def handle_module_failure (w : Watchdog) (module_id : Nat) : Watchdog :=
  match lookupMod w.modules module_id with
  | Option.none => w
  | some info =>
    let action := determine_recovery_action w info.failure_count
    let w1 := { w with
      recovery_actions_taken := w.recovery_actions_taken ++
        [{ module := module_id, action := action,
           failure_count := info.failure_count }] }
    match action with
    | RecoveryAction.soft =>
        if info.hasRecovery then
          { w1 with callback_invocations :=
              w1.callback_invocations ++ [(module_id, RecoveryAction.soft)] }
        else w1
    | RecoveryAction.moduleRestart =>
        if info.hasRecovery then
          { w1 with callback_invocations :=
              w1.callback_invocations ++ [(module_id, RecoveryAction.moduleRestart)] }
        else w1
    | RecoveryAction.systemReboot => { w1 with system_rebooted := true }
    | RecoveryAction.hwWatchdog => w1
    | RecoveryAction.none => w1

/-- MockWatchdog._update_module_health. As in the Python code, the failure
branch first bumps the counters in the registry and then runs
`_handle_module_failure` on the updated state. -/
def update_module_health (w : Watchdog) (module_id : Nat) (status : HealthStatus)
    (message : Option String) : Watchdog :=
  match lookupMod w.modules module_id with
  | Option.none => w
  | some info =>
    let info1 := { info with status := status, message := message }
    if status = HealthStatus.critical ∨ status = HealthStatus.failed then
      let info2 := { info1 with failure_count := info1.failure_count + 1,
                                total_failures := info1.total_failures + 1 }
      handle_module_failure
        { w with modules := setMod w.modules module_id info2 } module_id
    else if status = HealthStatus.ok ∧ info1.failure_count > 0 then
      let info2 := { info1 with failure_count := 0 }
      { w with modules := setMod w.modules module_id info2 }
    else
      { w with modules := setMod w.modules module_id info1 }

/-- The health-check loop of MockWatchdog.update: for each registered module
(in registration order) whose check_func is present, apply this tick's
check result. -/
def applyChecks (w : Watchdog) (checks : Nat → HealthStatus × Option String) :
    Watchdog :=
  (w.modules.map Prod.fst).foldl
    (fun acc id =>
      match lookupMod acc.modules id with
      | some info =>
          if info.hasCheck then
            update_module_health acc id (checks id).1 (checks id).2
          else acc
      | Option.none => acc)
    w

/-- MockWatchdog.update: run all health checks, then feed the hardware
watchdog iff the system is healthy. -/
def update (w : Watchdog) (checks : Nat → HealthStatus × Option String) : Watchdog :=
  let w1 := applyChecks w checks
  if is_healthy w1 then feed_hw_watchdog w1 else w1

/-- States reachable from a fresh manager by register_module / update calls. -/
inductive Reachable : Watchdog → Prop where
  | init : Reachable initWatchdog
  | register (w : Watchdog) (id : Nat) (hc hr : Bool) :
      Reachable w → Reachable (register_module w id hc hr)
  | tick (w : Watchdog) (checks : Nat → HealthStatus × Option String) :
      Reachable w → Reachable (update w checks)

/-- A health check that reports FAILED with message "Failed" on every tick. -/
def checksAlwaysFailed : Nat → HealthStatus × Option String :=
  fun _ => (HealthStatus.failed, some "Failed")

/-- Run k ticks with a single registered module (id 0, no recovery callback)
whose health check always returns FAILED. -/
def runAlwaysFail : Nat → Watchdog
  | 0 => register_module initWatchdog 0 true false
  | k + 1 => update (runAlwaysFail k) checksAlwaysFailed

/-- Run k ticks with a single registered module (id 0, with a recovery
callback) whose health check always returns FAILED. -/
def runFailCb : Nat → Watchdog
  | 0 => register_module initWatchdog 0 true true
  | k + 1 => update (runFailCb k) checksAlwaysFailed

/-! ### Basic lemmas about the registry and the operations -/

lemma lookupMod_setMod_self (l : List (Nat × ModuleInfo)) (id : Nat) (v : ModuleInfo) :
    lookupMod (setMod l id v) id = some v := by
  induction l with
  | nil => simp [setMod, lookupMod]
  | cons p rest ih =>
    by_cases h : p.1 = id
    · simp [setMod, h, lookupMod]
    · simp [setMod, h, lookupMod, ih]

lemma mem_setMod (l : List (Nat × ModuleInfo)) (id : Nat) (v : ModuleInfo)
    (p : Nat × ModuleInfo) (hp : p ∈ setMod l id v) : p = (id, v) ∨ p ∈ l := by
  induction l with
  | nil => simpa [setMod] using hp
  | cons q rest ih =>
    by_cases h : q.1 = id
    · rcases (by simpa [setMod, h] using hp : p = (id, v) ∨ p ∈ rest) with h1 | h1
      · exact Or.inl h1
      · exact Or.inr (List.mem_cons_of_mem q h1)
    · rcases (by simpa [setMod, h] using hp : p = q ∨ p ∈ setMod rest id v) with h1 | h1
      · exact Or.inr (h1 ▸ List.mem_cons_self q rest)
      · rcases ih h1 with h2 | h2
        · exact Or.inl h2
        · exact Or.inr (List.mem_cons_of_mem q h2)

lemma handle_modules_eq (w : Watchdog) (id : Nat) :
    (handle_module_failure w id).modules = w.modules := by
  unfold handle_module_failure
  split
  · rfl
  · dsimp only
    split <;> first | rfl | (split <;> rfl)

lemma handle_fed_eq (w : Watchdog) (id : Nat) :
    (handle_module_failure w id).hw_wdt_fed = w.hw_wdt_fed := by
  unfold handle_module_failure
  split
  · rfl
  · dsimp only
    split <;> first | rfl | (split <;> rfl)

lemma handle_feed_count_eq (w : Watchdog) (id : Nat) :
    (handle_module_failure w id).hw_wdt_feed_count = w.hw_wdt_feed_count := by
  unfold handle_module_failure
  split
  · rfl
  · dsimp only
    split <;> first | rfl | (split <;> rfl)

lemma umh_fed_eq (w : Watchdog) (id : Nat) (s : HealthStatus) (m : Option String) :
    (update_module_health w id s m).hw_wdt_fed = w.hw_wdt_fed := by
  unfold update_module_health
  split
  · rfl
  · dsimp only
    split
    · rw [handle_fed_eq]
    · split <;> rfl

lemma umh_feed_count_eq (w : Watchdog) (id : Nat) (s : HealthStatus) (m : Option String) :
    (update_module_health w id s m).hw_wdt_feed_count = w.hw_wdt_feed_count := by
  unfold update_module_health
  split
  · rfl
  · dsimp only
    split
    · rw [handle_feed_count_eq]
    · split <;> rfl

lemma applyChecks_fed_eq (w : Watchdog) (checks : Nat → HealthStatus × Option String) :
    (applyChecks w checks).hw_wdt_fed = w.hw_wdt_fed := by
  unfold applyChecks
  generalize w.modules.map Prod.fst = ids
  induction ids generalizing w with
  | nil => rfl
  | cons a as ih =>
    rw [List.foldl_cons, ih]
    split
    · split
      · rw [umh_fed_eq]
      · rfl
    · rfl

lemma applyChecks_feed_count_eq (w : Watchdog) (checks : Nat → HealthStatus × Option String) :
    (applyChecks w checks).hw_wdt_feed_count = w.hw_wdt_feed_count := by
  unfold applyChecks
  generalize w.modules.map Prod.fst = ids
  induction ids generalizing w with
  | nil => rfl
  | cons a as ih =>
    rw [List.foldl_cons, ih]
    split
    · split
      · rw [umh_feed_count_eq]
      · rfl
    · rfl

lemma is_healthy_feed (w : Watchdog) :
    is_healthy (feed_hw_watchdog w) = is_healthy w := rfl

/-- C1: with strictly ordered thresholds, _determine_recovery_action computes
exactly the spec table — SOFT below soft_threshold, MODULE_RESTART from
soft_threshold up to module_restart_threshold, SYSTEM_REBOOT from there up to
system_reboot_threshold, HARDWARE_WATCHDOG_RESET at or above it — and the
default thresholds of a fresh manager are (2, 5, 10). -/
theorem watchdog_escalation_table (w : Watchdog) (n : Nat)
    (h1 : w.soft_recovery_threshold < w.module_restart_threshold)
    (h2 : w.module_restart_threshold < w.system_recovery_threshold) :
    determine_recovery_action w n =
      (if n < w.soft_recovery_threshold then RecoveryAction.soft
       else if n < w.module_restart_threshold then RecoveryAction.moduleRestart
       else if n < w.system_recovery_threshold then RecoveryAction.systemReboot
       else RecoveryAction.hwWatchdog)
    ∧ initWatchdog.soft_recovery_threshold = 2
    ∧ initWatchdog.module_restart_threshold = 5
    ∧ initWatchdog.system_recovery_threshold = 10 := by
  refine ⟨?_, rfl, rfl, rfl⟩
  unfold determine_recovery_action
  split_ifs <;> first | rfl | omega

/-- Witness for C1 at the default thresholds and n = 3. -/
theorem watchdog_escalation_table_witness :
    (determine_recovery_action initWatchdog 3 =
      (if 3 < initWatchdog.soft_recovery_threshold then RecoveryAction.soft
       else if 3 < initWatchdog.module_restart_threshold then RecoveryAction.moduleRestart
       else if 3 < initWatchdog.system_recovery_threshold then RecoveryAction.systemReboot
       else RecoveryAction.hwWatchdog))
    ∧ initWatchdog.soft_recovery_threshold = 2
    ∧ initWatchdog.module_restart_threshold = 5
    ∧ initWatchdog.system_recovery_threshold = 10 :=
  watchdog_escalation_table initWatchdog 3 (by decide) (by decide)

/-- C4: each update call feeds the hardware watchdog exactly once when the
system health computed after that tick's module updates is OK or WARNING,
and not at all otherwise. -/
theorem watchdog_feed_gating (w : Watchdog) (checks : Nat → HealthStatus × Option String) :
    (update w checks).hw_wdt_feed_count =
      (if is_healthy (update w checks) = true then w.hw_wdt_feed_count + 1
       else w.hw_wdt_feed_count)
    ∧ is_healthy (update w checks) = is_healthy (applyChecks w checks) := by
  have hsame : is_healthy (update w checks) = is_healthy (applyChecks w checks) := by
    by_cases h : is_healthy (applyChecks w checks) = true
    · simp only [update, h, if_true, is_healthy_feed]
    · simp only [update, h, if_false, Bool.false_eq_true, ite_false]
  refine ⟨?_, hsame⟩
  rw [hsame]
  by_cases h : is_healthy (applyChecks w checks) = true
  · simp only [update, h, if_true, feed_hw_watchdog, applyChecks_feed_count_eq]
  · simp only [update, h, Bool.false_eq_true, ite_false, applyChecks_feed_count_eq]

/-- C10: the hw_wdt_fed flag starts false, register_module never changes it,
and update leaves it true whenever it was already true — it becomes the
disjunction of its old value with this tick's health — so it is monotone and
records "fed at least once", not "fed on the most recent tick". -/
theorem watchdog_fed_monotone (w : Watchdog) (checks : Nat → HealthStatus × Option String)
    (id : Nat) (hc hr : Bool) :
    initWatchdog.hw_wdt_fed = false
    ∧ (update w checks).hw_wdt_fed = (w.hw_wdt_fed || is_healthy (applyChecks w checks))
    ∧ (register_module w id hc hr).hw_wdt_fed = w.hw_wdt_fed := by
  refine ⟨rfl, ?_, rfl⟩
  by_cases h : is_healthy (applyChecks w checks) = true
  · simp only [update, h, if_true, feed_hw_watchdog, Bool.or_true]
  · have h0 : is_healthy (applyChecks w checks) = false := by
      cases hb : is_healthy (applyChecks w checks)
      · rfl
      · exact absurd hb h
    simp only [update, h0, Bool.false_eq_true, ite_false, applyChecks_fed_eq, Bool.or_false]

/-- The registry entry of the always-failing module (id 0) after k ticks. -/
def failModuleInfo (k : Nat) : ModuleInfo where
  hasCheck := true
  hasRecovery := false
  status := if k = 0 then HealthStatus.ok else HealthStatus.failed
  failure_count := k
  total_failures := k
  message := if k = 0 then Option.none else some "Failed"

/-- The recovery records accumulated after k always-failing ticks. -/
def failActions (k : Nat) : List RecoveryRecord :=
  (List.range k).map (fun i =>
    { module := 0, action := determine_recovery_action initWatchdog (i + 1),
      failure_count := i + 1 })

/-- Closed form of the state reached by runAlwaysFail k. -/
def failRunState (k : Nat) : Watchdog where
  modules := [(0, failModuleInfo k)]
  hw_wdt_fed := false
  hw_wdt_feed_count := 0
  system_rebooted := decide (5 ≤ k)
  recovery_actions_taken := failActions k
  callback_invocations := []
  soft_recovery_threshold := 2
  module_restart_threshold := 5
  system_recovery_threshold := 10

lemma update_failRunState (k : Nat) :
    update (failRunState k) checksAlwaysFailed = failRunState (k + 1) := by
  rcases Nat.lt_or_ge k 9 with h | h
  · interval_cases k <;> decide
  · have h10 : 10 ≤ k + 1 := by omega
    have hk0 : ¬ (k + 1 = 0) := by omega
    have h5k : 5 ≤ k := by omega
    have h5k1 : 5 ≤ k + 1 := by omega
    simp [update, applyChecks, failRunState, failModuleInfo, failActions,
      checksAlwaysFailed, lookupMod, update_module_health, handle_module_failure,
      setMod, determine_recovery_action, is_healthy, get_system_health, worstStep,
      feed_hw_watchdog, sev, List.range_succ, initWatchdog, h, h10, hk0, h5k, h5k1]

lemma runAlwaysFail_eq (k : Nat) : runAlwaysFail k = failRunState k := by
  induction k with
  | zero => decide
  | succ n ih =>
    rw [runAlwaysFail, ih]
    exact update_failRunState n

/-- C2 counterexample: with default thresholds, the single always-failing
module gets MODULE_RESTART (not SOFT) on the tick where its streak reaches 2,
because _determine_recovery_action already escalates at
failure_count = soft_recovery_threshold = 2. -/
theorem watchdog_streak2_counterexample :
    (runAlwaysFail 2).recovery_actions_taken =
      [{ module := 0, action := RecoveryAction.soft, failure_count := 1 },
       { module := 0, action := RecoveryAction.moduleRestart, failure_count := 2 }]
    ∧ RecoveryAction.moduleRestart ≠ RecoveryAction.soft := by decide

/-- C2 (amended): with default thresholds (2, 5, 10), the always-failing
module produces, at streak n starting from 1, the actions SOFT for n = 1,
MODULE_RESTART for 2 ≤ n ≤ 4, SYSTEM_REBOOT for 5 ≤ n ≤ 9, and
HARDWARE_WATCHDOG_RESET for every n ≥ 10; in particular the action on the
tick where the streak reaches 2 is MODULE_RESTART. -/
theorem watchdog_fail_run_actions (k : Nat) :
    (runAlwaysFail k).recovery_actions_taken.map (fun r => r.action) =
      (List.range k).map (fun i =>
        if i + 1 < 2 then RecoveryAction.soft
        else if i + 1 < 5 then RecoveryAction.moduleRestart
        else if i + 1 < 10 then RecoveryAction.systemReboot
        else RecoveryAction.hwWatchdog) := by
  rw [runAlwaysFail_eq]
  show (failActions k).map (fun r => r.action) = _
  unfold failActions
  rw [List.map_map]
  have hfun : ((fun r : RecoveryRecord => r.action) ∘ (fun i =>
      ({ module := 0, action := determine_recovery_action initWatchdog (i + 1),
         failure_count := i + 1 } : RecoveryRecord))) = (fun i =>
        if i + 1 < 2 then RecoveryAction.soft
        else if i + 1 < 5 then RecoveryAction.moduleRestart
        else if i + 1 < 10 then RecoveryAction.systemReboot
        else RecoveryAction.hwWatchdog) := by
    funext i
    show determine_recovery_action initWatchdog (i + 1) = _
    simp only [determine_recovery_action, initWatchdog]
    split_ifs <;> first | rfl | omega
  rw [hfun]

/-- Thresholds, hence the computed action, do not depend on the registry. -/
lemma determine_modules_irrel (w : Watchdog) (l : List (Nat × ModuleInfo)) (n : Nat) :
    determine_recovery_action { w with modules := l } n =
      determine_recovery_action w n := rfl

/-- C3 counterexample: a module registered with a recovery callback that
fails five ticks in a row has its new status FAILED on tick 5 and the
computed action SYSTEM_REBOOT recorded, yet the callback-invocation trace
stops at tick 4 — the callback is never invoked with SYSTEM_REBOOT. -/
theorem watchdog_callback_skip_counterexample :
    (runFailCb 5).modules =
      [(0, (⟨true, true, HealthStatus.failed, 5, 5, some "Failed"⟩ : ModuleInfo))]
    ∧ (runFailCb 5).recovery_actions_taken.map (fun r => r.action) =
        [RecoveryAction.soft, RecoveryAction.moduleRestart,
         RecoveryAction.moduleRestart, RecoveryAction.moduleRestart,
         RecoveryAction.systemReboot]
    ∧ (runFailCb 5).callback_invocations =
        [(0, RecoveryAction.soft), (0, RecoveryAction.moduleRestart),
         (0, RecoveryAction.moduleRestart), (0, RecoveryAction.moduleRestart)] := by
  decide

/-- C3 (amended): on a tick where a module's new status is CRITICAL or FAILED,
the action computed from the bumped streak is recorded; the recovery callback
is invoked with that action exactly when the callback is present and the
action is SOFT or MODULE_RESTART; SYSTEM_REBOOT instead sets the
system_rebooted flag; HARDWARE_WATCHDOG_RESET changes nothing beyond the
record; the feed state is untouched in every case. -/
theorem watchdog_callback_policy (w : Watchdog) (id : Nat) (info : ModuleInfo)
    (status : HealthStatus) (msg : Option String)
    (hlook : lookupMod w.modules id = some info)
    (hfail : status = HealthStatus.critical ∨ status = HealthStatus.failed) :
    (update_module_health w id status msg).recovery_actions_taken =
      w.recovery_actions_taken ++
        [{ module := id,
           action := determine_recovery_action w (info.failure_count + 1),
           failure_count := info.failure_count + 1 }]
    ∧ ((info.hasRecovery = true ∧
          (determine_recovery_action w (info.failure_count + 1) = RecoveryAction.soft ∨
           determine_recovery_action w (info.failure_count + 1) = RecoveryAction.moduleRestart)) →
        (update_module_health w id status msg).callback_invocations =
          w.callback_invocations ++
            [(id, determine_recovery_action w (info.failure_count + 1))])
    ∧ ((info.hasRecovery = false ∨
          (determine_recovery_action w (info.failure_count + 1) ≠ RecoveryAction.soft ∧
           determine_recovery_action w (info.failure_count + 1) ≠ RecoveryAction.moduleRestart)) →
        (update_module_health w id status msg).callback_invocations =
          w.callback_invocations)
    ∧ (update_module_health w id status msg).system_rebooted =
        (w.system_rebooted ||
          decide (determine_recovery_action w (info.failure_count + 1) =
            RecoveryAction.systemReboot))
    ∧ (update_module_health w id status msg).hw_wdt_fed = w.hw_wdt_fed
    ∧ (update_module_health w id status msg).hw_wdt_feed_count = w.hw_wdt_feed_count := by
  simp only [update_module_health, hlook]
  rw [if_pos hfail]
  simp only [handle_module_failure, lookupMod_setMod_self]
  simp only [determine_modules_irrel]
  rcases hact : determine_recovery_action w (info.failure_count + 1) with _ | _ | _ | _ | _ <;>
    cases hrec : info.hasRecovery <;>
      simp [hrec]

/-- A fresh manager with one module (id 0) registered with both callbacks. -/
def cbWitnessState : Watchdog := register_module initWatchdog 0 true true

/-- Witness for C3 at a first failure of the callback-equipped module: the
computed action is SOFT, so the callback is invoked with it, and the feed
flag is untouched. -/
theorem watchdog_callback_policy_witness :
    (update_module_health cbWitnessState 0 HealthStatus.failed (some "m")).callback_invocations =
      cbWitnessState.callback_invocations ++ [(0, RecoveryAction.soft)]
    ∧ (update_module_health cbWitnessState 0 HealthStatus.failed (some "m")).hw_wdt_fed =
        cbWitnessState.hw_wdt_fed := by
  have h := watchdog_callback_policy cbWitnessState 0
    ⟨true, true, HealthStatus.ok, 0, 0, Option.none⟩ HealthStatus.failed (some "m")
    (by decide) (Or.inr rfl)
  refine ⟨?_, h.2.2.2.2.1⟩
  have h2 := h.2.1 ⟨rfl, Or.inl (by decide)⟩
  rw [show determine_recovery_action cbWitnessState
      ((⟨true, true, HealthStatus.ok, 0, 0, Option.none⟩ : ModuleInfo).failure_count + 1) =
      RecoveryAction.soft from by decide] at h2
  exact h2

/-- C5: applying one tick's health-check result to a registered module changes
its counters by status: CRITICAL or FAILED bumps both the streak and the
lifetime total by exactly 1, OK zeroes the streak and leaves the total alone,
WARNING leaves both alone, and the lifetime total never decreases. -/
theorem watchdog_counter_step (w : Watchdog) (id : Nat) (info : ModuleInfo)
    (status : HealthStatus) (msg : Option String)
    (hlook : lookupMod w.modules id = some info) :
    ∃ info2, lookupMod (update_module_health w id status msg).modules id = some info2
      ∧ info2.status = status
      ∧ ((status = HealthStatus.critical ∨ status = HealthStatus.failed) →
          info2.failure_count = info.failure_count + 1
          ∧ info2.total_failures = info.total_failures + 1)
      ∧ (status = HealthStatus.ok →
          info2.failure_count = 0 ∧ info2.total_failures = info.total_failures)
      ∧ (status = HealthStatus.warning →
          info2.failure_count = info.failure_count
          ∧ info2.total_failures = info.total_failures)
      ∧ info.total_failures ≤ info2.total_failures := by
  rcases status with _ | _ | _ | _
  case ok =>
    by_cases hfc : info.failure_count > 0
    · refine ⟨{ info with status := HealthStatus.ok, message := msg, failure_count := 0 },
        ?_, ?_⟩
      · simp [update_module_health, hlook, hfc, lookupMod_setMod_self]
      · simp
    · refine ⟨{ info with status := HealthStatus.ok, message := msg }, ?_, ?_⟩
      · simp [update_module_health, hlook, hfc, lookupMod_setMod_self]
      · simp
        omega
  case warning =>
    refine ⟨{ info with status := HealthStatus.warning, message := msg }, ?_, ?_⟩
    · simp [update_module_health, hlook, lookupMod_setMod_self]
    · simp
  case critical =>
    refine ⟨{ info with status := HealthStatus.critical, message := msg,
                        failure_count := info.failure_count + 1,
                        total_failures := info.total_failures + 1 }, ?_, ?_⟩
    · simp [update_module_health, hlook, handle_modules_eq, lookupMod_setMod_self]
    · simp
  case failed =>
    refine ⟨{ info with status := HealthStatus.failed, message := msg,
                        failure_count := info.failure_count + 1,
                        total_failures := info.total_failures + 1 }, ?_, ?_⟩
    · simp [update_module_health, hlook, handle_modules_eq, lookupMod_setMod_self]
    · simp

/-- Witness for C5: a first CRITICAL tick for a freshly registered module
takes both counters from 0 to 1. -/
theorem watchdog_counter_step_witness :
    ∃ info2, lookupMod (update_module_health (register_module initWatchdog 0 true false)
        0 HealthStatus.critical (some "x")).modules 0 = some info2
      ∧ info2.failure_count = 1 ∧ info2.total_failures = 1 := by
  obtain ⟨info2, h1, _, h3, _⟩ := watchdog_counter_step
    (register_module initWatchdog 0 true false) 0
    ⟨true, false, HealthStatus.ok, 0, 0, Option.none⟩
    HealthStatus.critical (some "x") (by decide)
  obtain ⟨hf, ht⟩ := h3 (Or.inl rfl)
  exact ⟨info2, h1, by simpa using hf, by simpa using ht⟩

lemma sev_worstStep_left (acc : HealthStatus) (p : Nat × ModuleInfo) :
    sev acc ≤ sev (worstStep acc p) := by
  unfold worstStep
  split
  · exact Nat.le_of_lt (by assumption)
  · exact Nat.le_refl _

lemma sev_worstStep_right (acc : HealthStatus) (p : Nat × ModuleInfo) :
    sev p.2.status ≤ sev (worstStep acc p) := by
  unfold worstStep
  split
  · exact Nat.le_refl _
  · omega

lemma foldl_worst_le (l : List (Nat × ModuleInfo)) (acc : HealthStatus) :
    sev acc ≤ sev (l.foldl worstStep acc) := by
  induction l generalizing acc with
  | nil => exact Nat.le_refl _
  | cons p rest ih =>
    rw [List.foldl_cons]
    exact Nat.le_trans (sev_worstStep_left acc p) (ih (worstStep acc p))

lemma foldl_worst_mem (l : List (Nat × ModuleInfo)) (acc : HealthStatus)
    (p : Nat × ModuleInfo) (hp : p ∈ l) :
    sev p.2.status ≤ sev (l.foldl worstStep acc) := by
  induction l generalizing acc with
  | nil => cases hp
  | cons q rest ih =>
    rw [List.foldl_cons]
    rcases List.mem_cons.mp hp with h | h
    · subst h
      exact Nat.le_trans (sev_worstStep_right acc p) (foldl_worst_le rest _)
    · exact ih _ h

lemma foldl_worst_attained (l : List (Nat × ModuleInfo)) (acc : HealthStatus) :
    l.foldl worstStep acc = acc ∨ ∃ p, p ∈ l ∧ p.2.status = l.foldl worstStep acc := by
  induction l generalizing acc with
  | nil => exact Or.inl rfl
  | cons q rest ih =>
    rw [List.foldl_cons]
    rcases ih (worstStep acc q) with h | h
    · rw [h]
      unfold worstStep
      split
      · exact Or.inr ⟨q, List.mem_cons_self q rest, rfl⟩
      · exact Or.inl rfl
    · obtain ⟨p, hp, hps⟩ := h
      exact Or.inr ⟨p, List.mem_cons_of_mem q hp, hps⟩

/-- C6: get_system_health is an upper bound (in severity) of every registered
module's status and is either attained by some module or equal to OK; an
empty registry yields OK; and is_healthy holds exactly when the system
health is OK or WARNING. -/
theorem watchdog_system_health_max (w : Watchdog) :
    (∀ p, p ∈ w.modules → sev p.2.status ≤ sev (get_system_health w))
    ∧ (get_system_health w = HealthStatus.ok ∨
        ∃ p, p ∈ w.modules ∧ p.2.status = get_system_health w)
    ∧ (w.modules = [] → get_system_health w = HealthStatus.ok)
    ∧ (is_healthy w = true ↔ (get_system_health w = HealthStatus.ok ∨
        get_system_health w = HealthStatus.warning)) := by
  refine ⟨?_, ?_, ?_, ?_⟩
  · intro p hp
    exact foldl_worst_mem w.modules HealthStatus.ok p hp
  · exact foldl_worst_attained w.modules HealthStatus.ok
  · intro h
    simp [get_system_health, h]
  · cases hs : get_system_health w <;> simp [is_healthy, hs]

/-- A one-module manager whose module has gone CRITICAL once. -/
def sysHealthExample : Watchdog :=
  update (register_module initWatchdog 3 true false)
    (fun _ => (HealthStatus.critical, Option.none))

/-- Witness for C6 on a manager whose single module is CRITICAL. -/
theorem watchdog_system_health_max_witness :
    sev ((3, (⟨true, false, HealthStatus.critical, 1, 1, Option.none⟩ : ModuleInfo)) :
        Nat × ModuleInfo).2.status ≤ sev (get_system_health sysHealthExample)
    ∧ (is_healthy sysHealthExample = true ↔
        (get_system_health sysHealthExample = HealthStatus.ok ∨
         get_system_health sysHealthExample = HealthStatus.warning)) := by
  refine ⟨?_, (watchdog_system_health_max sysHealthExample).2.2.2⟩
  exact (watchdog_system_health_max sysHealthExample).1
    (3, (⟨true, false, HealthStatus.critical, 1, 1, Option.none⟩ : ModuleInfo)) (by decide)

/-- C7: get_module_health returns FAILED for an id absent from the registry
and the last-observed status for a registered id. -/
theorem watchdog_unknown_module (w : Watchdog) (id : Nat) :
    (lookupMod w.modules id = Option.none →
      get_module_health w id = HealthStatus.failed)
    ∧ (∀ info, lookupMod w.modules id = some info →
      get_module_health w id = info.status) := by
  constructor
  · intro h
    simp [get_module_health, h]
  · intro info h
    simp [get_module_health, h]

/-- Witness for C7: id 7 is unregistered on a fresh manager (FAILED); id 0,
just registered, reads its stored OK status. -/
theorem watchdog_unknown_module_witness :
    get_module_health initWatchdog 7 = HealthStatus.failed
    ∧ get_module_health (register_module initWatchdog 0 true false) 0 =
        HealthStatus.ok := by
  constructor
  · exact (watchdog_unknown_module initWatchdog 7).1 (by decide)
  · exact (watchdog_unknown_module (register_module initWatchdog 0 true false) 0).2
      ⟨true, false, HealthStatus.ok, 0, 0, Option.none⟩ (by decide)

lemma lookupMod_mem (l : List (Nat × ModuleInfo)) (id : Nat) (v : ModuleInfo)
    (h : lookupMod l id = some v) : (id, v) ∈ l := by
  induction l with
  | nil => cases h
  | cons q rest ih =>
    obtain ⟨k, v'⟩ := q
    by_cases hk : k = id
    · rw [lookupMod, if_pos hk] at h
      injection h with hv
      rw [← hk, ← hv]
      exact List.mem_cons_self (k, v') rest
    · rw [lookupMod, if_neg hk] at h
      exact List.mem_cons_of_mem (k, v') (ih h)

/-- Every registered module's streak counter is bounded by its lifetime
total. -/
def counters_ok (w : Watchdog) : Prop :=
  ∀ p, p ∈ w.modules → p.2.failure_count ≤ p.2.total_failures

lemma counters_ok_umh (w : Watchdog) (id : Nat) (s : HealthStatus)
    (m : Option String) (h : counters_ok w) :
    counters_ok (update_module_health w id s m) := by
  unfold update_module_health
  split
  · exact h
  case h_2 info heq =>
    dsimp only
    split
    · intro p hp
      rw [handle_modules_eq] at hp
      rcases mem_setMod _ _ _ p hp with h1 | h1
      · subst h1
        exact Nat.succ_le_succ (h (id, info) (lookupMod_mem _ _ _ heq))
      · exact h p h1
    · split
      · intro p hp
        rcases mem_setMod _ _ _ p hp with h1 | h1
        · subst h1
          exact Nat.zero_le _
        · exact h p h1
      · intro p hp
        rcases mem_setMod _ _ _ p hp with h1 | h1
        · subst h1
          exact h (id, info) (lookupMod_mem _ _ _ heq)
        · exact h p h1

lemma counters_ok_applyChecks (w : Watchdog)
    (checks : Nat → HealthStatus × Option String) (h : counters_ok w) :
    counters_ok (applyChecks w checks) := by
  unfold applyChecks
  generalize w.modules.map Prod.fst = ids
  induction ids generalizing w with
  | nil => exact h
  | cons a as ih =>
    rw [List.foldl_cons]
    apply ih
    split
    · split
      · exact counters_ok_umh _ _ _ _ h
      · exact h
    · exact h

/-- C8: in every state reachable from a fresh manager by register_module and
update calls, each registered module's consecutive failure count is at most
its lifetime total failure count. -/
theorem watchdog_counter_invariant (w : Watchdog) (h : Reachable w) :
    counters_ok w := by
  induction h with
  | init =>
    intro p hp
    cases hp
  | register w id hc hr _ ih =>
    intro p hp
    rcases mem_setMod _ _ _ p (by simpa [register_module] using hp) with h1 | h1
    · subst h1
      exact Nat.le_refl 0
    · exact ih p h1
  | tick w checks _ ih =>
    unfold update
    dsimp only
    split
    · intro p hp
      exact counters_ok_applyChecks w checks ih p hp
    · exact counters_ok_applyChecks w checks ih

/-- Witness for C8: a fresh manager after one registration and one failing
tick satisfies the counter invariant. -/
theorem watchdog_counter_invariant_witness :
    counters_ok (update (register_module initWatchdog 0 true false) checksAlwaysFailed) :=
  watchdog_counter_invariant _
    (Reachable.tick _ _ (Reachable.register _ 0 true false Reachable.init))

/-- C9: register_module always installs a record with status OK, both
counters 0 and no message — also for an id that is already registered, so a
lifetime total is erased by re-registration — and the fresh module reads OK
through get_module_health; on a fresh manager the registered module leaves
get_system_health at OK. -/
theorem watchdog_register_overwrite (w : Watchdog) (id : Nat) (hc hr : Bool) :
    lookupMod (register_module w id hc hr).modules id =
      some ⟨hc, hr, HealthStatus.ok, 0, 0, Option.none⟩
    ∧ get_module_health (register_module w id hc hr) id = HealthStatus.ok
    ∧ get_system_health (register_module initWatchdog id hc hr) = HealthStatus.ok := by
  have h1 : lookupMod (register_module w id hc hr).modules id =
      some ⟨hc, hr, HealthStatus.ok, 0, 0, Option.none⟩ := by
    simp [register_module, lookupMod_setMod_self]
  refine ⟨h1, ?_, ?_⟩
  · simp [get_module_health, h1]
  · simp [register_module, initWatchdog, get_system_health, setMod, worstStep, sev]
